import Mathlib

/-!
Verification development for the FreeFileSync in-memory comparison tree
(`FreeFileSync/Source/base/file_hierarchy.h`).

The C++ classes are embedded shallowly:

* enums (`SelectSide`, `CompareFileResult`, `SyncDirection`, `BaseFolderStatus`)
  become Lean inductives;
* `Zstring` / `AbstractPath` become `String` (empty string = "not existing");
* the `FileSystemObject` base-class state (category, category description,
  active flag, sync direction, conflict description, the two item names)
  becomes the structure `FSObjectData`, and its member functions become pure
  functions `FSObjectData → FSObjectData`;
* `FilePair` / `SymlinkPair` become structures over `FSObjectData`;
* `FolderPair` (a `FileSystemObject` that is also a `ContainerObject`)
  becomes a nested inductive holding its child lists, the cached relative
  paths and the `syncOpBuffered_` member;
* `BaseFolderPair` becomes a structure holding root paths, root statuses,
  the immutable comparison settings and the child lists.

Mutation of a `mutable`/member field becomes functional record update;
the `notifySyncCfgChanged` upward propagation (child → parent, clearing
`syncOpBuffered_` at every `FolderPair` on the ancestor chain) is embedded by
clearing the buffer field of every folder along the path that a tree-level
operation descends through.
-/

/-- Model of enum class `SelectSide` from file_hierarchy.h. -/
inductive SelectSide where
  | left
  | right
deriving DecidableEq, Repr

/-- Model of `getOtherSide` from file_hierarchy.h. -/
def getOtherSide : SelectSide → SelectSide
  | .left => .right
  | .right => .left

/-- Model of `selectParam<side>(left, right)` from file_hierarchy.h. -/
def selectParam {T : Type} (side : SelectSide) (left right : T) : T :=
  match side with
  | .left => left
  | .right => right

/-- Modelled from the spec: enum `CompareFileResult` lives in `structures.h`,
which is not part of the sampled sources; its eight values are taken from the
spec's Category set and from the constant names used in file_hierarchy.h
(`FILE_LEFT_SIDE_ONLY` = `leftOnly`, `FILE_RIGHT_SIDE_ONLY` = `rightOnly`,
`FILE_LEFT_NEWER` = `leftNewer`, `FILE_RIGHT_NEWER` = `rightNewer`,
`FILE_DIFFERENT_CONTENT` = `differentContent`, `FILE_EQUAL` = `equal`,
`FILE_DIFFERENT_METADATA` = `differentMetadata`, `FILE_CONFLICT` = `conflict`). -/
inductive CompareFileResult where
  | leftOnly
  | rightOnly
  | leftNewer
  | rightNewer
  | differentContent
  | equal
  | differentMetadata
  | conflict
deriving DecidableEq, Repr

/-- Modelled from the spec: enum `SyncDirection` lives in `structures.h`,
which is not part of the sampled sources; per the spec glossary it has the
three values Left, Right, None. -/
inductive SyncDirection where
  | left
  | right
  | none
deriving DecidableEq, Repr

/-- Model of enum class `BaseFolderStatus` from file_hierarchy.h. -/
inductive BaseFolderStatus where
  | existing
  | notExisting
  | failure
deriving DecidableEq, Repr

/-- Model of struct `FileAttributes` from file_hierarchy.h
(`time_t` as `Int`, `uint64_t` and `AFS::FingerPrint` as `Nat`). -/
structure FileAttributes where
  modTime : Int := 0
  fileSize : Nat := 0
  filePrint : Nat := 0
  isFollowedSymlink : Bool := false
deriving DecidableEq, Repr

/-- Model of struct `LinkAttributes` from file_hierarchy.h. -/
structure LinkAttributes where
  modTime : Int := 0
deriving DecidableEq, Repr

/-- Model of struct `FolderAttributes` from file_hierarchy.h. -/
structure FolderAttributes where
  isFollowedSymlink : Bool := false
deriving DecidableEq, Repr

/-- The data members of class `FileSystemObject` from file_hierarchy.h:
`cmpResult_`, `cmpResultDescr_`, `selectedForSync_`, `syncDir_`,
`syncDirectionConflict_`, `itemNameL_`, `itemNameR_` (the parent
back-reference is represented by the tree structure itself). -/
structure FSObjectData where
  cmpResult : CompareFileResult
  cmpResultDescr : String := ""
  selectedForSync : Bool := true
  syncDir : SyncDirection := SyncDirection.none
  syncDirectionConflict : String := ""
  itemNameL : String
  itemNameR : String
deriving DecidableEq, Repr

namespace FSObjectData

/-- Model of the `FileSystemObject` constructor body from file_hierarchy.h:
category from `defaultCmpResult`, `itemNameR_` shares `itemNameL_` when equal
(a pure memory optimization, semantically the identity), all other members
take their in-class initializers (`selectedForSync_ = true`,
`syncDir_ = SyncDirection::none`, empty descriptions). -/
def init (itemNameL itemNameR : String) (defaultCmpResult : CompareFileResult) :
    FSObjectData :=
  { cmpResult := defaultCmpResult
    itemNameL := itemNameL
    itemNameR := if itemNameL = itemNameR then itemNameL else itemNameR }

/-- Model of `FileSystemObject::isEmpty<side>` from file_hierarchy.h. -/
def isEmptySide (side : SelectSide) (d : FSObjectData) : Bool :=
  selectParam side d.itemNameL d.itemNameR = ""

/-- Model of `FileSystemObject::isPairEmpty` from file_hierarchy.h. -/
def isPairEmpty (d : FSObjectData) : Bool :=
  d.isEmptySide .left && d.isEmptySide .right

/-- Model of `FileSystemObject::getItemName<side>` from file_hierarchy.h:
return the selected side's name if non-empty, else the other side's name. -/
def getItemName (side : SelectSide) (d : FSObjectData) : String :=
  let itemName := selectParam side d.itemNameL d.itemNameR
  if itemName ≠ "" then itemName
  else selectParam (getOtherSide side) d.itemNameL d.itemNameR

/-- Model of `FileSystemObject::getItemNameAny` from file_hierarchy.h. -/
def getItemNameAny (d : FSObjectData) : String :=
  d.getItemName .left

/-- Model of `FileSystemObject::setSyncDir` from file_hierarchy.h:
store the new direction and clear the conflict description
(the `notifySyncCfgChanged()` call is reflected at the tree level). -/
def setSyncDir (newDir : SyncDirection) (d : FSObjectData) : FSObjectData :=
  { d with syncDir := newDir, syncDirectionConflict := "" }

/-- Model of `FileSystemObject::setSyncDirConflict` from file_hierarchy.h:
direction becomes none, the description is stored. -/
def setSyncDirConflict (description : String) (d : FSObjectData) : FSObjectData :=
  { d with syncDir := SyncDirection.none, syncDirectionConflict := description }

/-- Model of `FileSystemObject::setActive` from file_hierarchy.h. -/
def setActive (active : Bool) (d : FSObjectData) : FSObjectData :=
  { d with selectedForSync := active }

/-- Model of `FileSystemObject::removeObject<side>` restricted to the
`FileSystemObject` members, from file_hierarchy.h: the category is derived
from the *other* side's emptiness (before the side's name is cleared, which
cannot change the other side), the side's name is cleared, and
`setSyncDir(SyncDirection::none)` clears direction and conflict. The
trailing `propagateChangedItemName` call (which may refresh the derived
relative-path caches of a folder's subtree from the parent chain) is not
modelled: it reads state outside the entity and touches no field that the
claims about this function concern. -/
def removeObjectSide (side : SelectSide) (d : FSObjectData) : FSObjectData :=
  match side with
  | .left =>
      setSyncDir SyncDirection.none
        { d with
          cmpResult := if d.isEmptySide .right then .equal else .rightOnly
          itemNameL := "" }
  | .right =>
      setSyncDir SyncDirection.none
        { d with
          cmpResult := if d.isEmptySide .left then .equal else .leftOnly
          itemNameR := "" }

/-- Model of `FileSystemObject::setSynced` from file_hierarchy.h:
both names become `itemName`, the category becomes `FILE_EQUAL`, and
`setSyncDir(SyncDirection::none)` clears direction and conflict. The
trailing `propagateChangedItemName` calls are not modelled, as for
`removeObjectSide`. -/
def setSynced (itemName : String) (d : FSObjectData) : FSObjectData :=
  setSyncDir SyncDirection.none
    { d with itemNameL := itemName, itemNameR := itemName, cmpResult := .equal }

/-- Model of `FileSystemObject::setCategory<res>` from file_hierarchy.h
(the deleted specializations for conflict / different-metadata /
left-side-only / right-side-only are expressed by the `Reachable` relation
only ever invoking this with the four allowed values). -/
def setCategory (res : CompareFileResult) (d : FSObjectData) : FSObjectData :=
  { d with cmpResult := res }

/-- Model of `FileSystemObject::setCategoryConflict` from file_hierarchy.h. -/
def setCategoryConflict (description : String) (d : FSObjectData) : FSObjectData :=
  { d with cmpResult := .conflict, cmpResultDescr := description }

/-- Model of `FileSystemObject::setCategoryDiffMetadata` from file_hierarchy.h. -/
def setCategoryDiffMetadata (description : String) (d : FSObjectData) : FSObjectData :=
  { d with cmpResult := .differentMetadata, cmpResultDescr := description }

end FSObjectData

/-- The category swap performed by the `switch` statement inside
`FileSystemObject::flip` in file_hierarchy.h. -/
def flipCategory : CompareFileResult → CompareFileResult
  | .leftOnly => .rightOnly
  | .rightOnly => .leftOnly
  | .leftNewer => .rightNewer
  | .rightNewer => .leftNewer
  | .differentContent => .differentContent
  | .equal => .equal
  | .differentMetadata => .differentMetadata
  | .conflict => .conflict

namespace FSObjectData

/-- Model of `FileSystemObject::flip` from file_hierarchy.h:
swap the item names and apply the category switch; direction, conflict
description, category description and active flag are untouched. -/
def flip (d : FSObjectData) : FSObjectData :=
  { d with
    itemNameL := d.itemNameR
    itemNameR := d.itemNameL
    cmpResult := flipCategory d.cmpResult }

end FSObjectData

/-- Modelled from the spec: enum `SyncOperation` lives in `structures.h`,
which is not part of the sampled sources; the spec glossary gives the
operation kinds Create / Update / Delete / Move / DoNothing /
UnresolvedConflict, and section 4.4 makes Create / Update / Delete sided
(create-on-missing-side, delete-on-present-side, update-X-from-other). -/
inductive SyncOperation where
  | createLeft
  | createRight
  | deleteLeft
  | deleteRight
  | updateLeft
  | updateRight
  | moveLeft
  | moveRight
  | doNothing
  | unresolvedConflict
deriving DecidableEq, Repr

/-- Model of class `FilePair` from file_hierarchy.h: the `FileSystemObject`
members plus `attrL_`, `attrR_` and `moveFileRef_` (an object id, see
`ObjectMgr`; `nullptr` becomes `Option.none`). -/
structure FilePair where
  obj : FSObjectData
  attrL : FileAttributes := {}
  attrR : FileAttributes := {}
  moveFileRef : Option Nat := none
deriving DecidableEq, Repr

/-- Model of class `SymlinkPair` from file_hierarchy.h. -/
structure SymlinkPair where
  obj : FSObjectData
  attrL : LinkAttributes := {}
  attrR : LinkAttributes := {}
deriving DecidableEq, Repr

/-- Model of class `FolderPair` from file_hierarchy.h: the
`FileSystemObject` members, the two `FolderAttributes`, the mutable
`syncOpBuffered_` cache, and the `ContainerObject` members (the cached
relative paths `relPathL_`/`relPathR_` and the three child lists
`subFiles_`, `subLinks_`, `subFolders_`). -/
inductive FolderPair where
  | mk
      (obj : FSObjectData)
      (attrL attrR : FolderAttributes)
      (syncOpBuffered : Option SyncOperation)
      (relPathL relPathR : String)
      (subFiles : List FilePair)
      (subLinks : List SymlinkPair)
      (subFolders : List FolderPair)

namespace FolderPair

def obj : FolderPair → FSObjectData
  | .mk o _ _ _ _ _ _ _ _ => o

def attrL : FolderPair → FolderAttributes
  | .mk _ aL _ _ _ _ _ _ _ => aL

def attrR : FolderPair → FolderAttributes
  | .mk _ _ aR _ _ _ _ _ _ => aR

def syncOpBuffered : FolderPair → Option SyncOperation
  | .mk _ _ _ buf _ _ _ _ _ => buf

def relPathL : FolderPair → String
  | .mk _ _ _ _ rL _ _ _ _ => rL

def relPathR : FolderPair → String
  | .mk _ _ _ _ _ rR _ _ _ => rR

def subFiles : FolderPair → List FilePair
  | .mk _ _ _ _ _ _ fs _ _ => fs

def subLinks : FolderPair → List SymlinkPair
  | .mk _ _ _ _ _ _ _ ls _ => ls

def subFolders : FolderPair → List FolderPair
  | .mk _ _ _ _ _ _ _ _ ds => ds

end FolderPair

/-- Model of class `BaseFolderPair` from file_hierarchy.h: root paths and
root statuses per side, the immutable comparison settings (filter reference,
compare variant and time tolerance modelled opaquely as numbers, since their
types live outside the sampled sources), and the `ContainerObject` members. -/
structure BaseFolderPair where
  filterRef : Nat
  cmpVar : Nat
  fileTimeTolerance : Int
  ignoreTimeShiftMinutes : List Nat
  folderStatusLeft : BaseFolderStatus
  folderStatusRight : BaseFolderStatus
  folderPathLeft : String
  folderPathRight : String
  relPathL : String := ""
  relPathR : String := ""
  subFiles : List FilePair := []
  subLinks : List SymlinkPair := []
  subFolders : List FolderPair := []

namespace FilePair

/-- Model of `FilePair::flip` from file_hierarchy.h: the base-class
`FileSystemObject::flip` plus `std::swap(attrL_, attrR_)`;
`moveFileRef_` is not touched. -/
def flip (f : FilePair) : FilePair :=
  { f with obj := f.obj.flip, attrL := f.attrR, attrR := f.attrL }

/-- Model of `FileSystemObject::removeObject<side>` on a `FilePair` from
file_hierarchy.h: the base-class part plus the virtual
`removeObjectL`/`removeObjectR`, which reset the side's attributes to
`FileAttributes()`. -/
def removeObjectSide (side : SelectSide) (f : FilePair) : FilePair :=
  match side with
  | .left => { f with obj := f.obj.removeObjectSide .left, attrL := {} }
  | .right => { f with obj := f.obj.removeObjectSide .right, attrR := {} }

/-- Model of `FilePair::setSyncedTo<sideTrg>` from file_hierarchy.h:
the target side receives `FileAttributes(lastWriteTimeTrg, fileSize,
filePrintTrg, isSymlinkTrg)`, the other side `FileAttributes(lastWriteTimeSrc,
fileSize, filePrintSrc, isSymlinkSrc)`, `moveFileRef_` is reset to null, and
`FileSystemObject::setSynced(itemName)` finishes. -/
def setSyncedTo (sideTrg : SelectSide) (itemName : String) (fileSize : Nat)
    (lastWriteTimeTrg lastWriteTimeSrc : Int)
    (filePrintTrg filePrintSrc : Nat)
    (isSymlinkTrg isSymlinkSrc : Bool) (f : FilePair) : FilePair :=
  let attrTrg : FileAttributes :=
    { modTime := lastWriteTimeTrg, fileSize := fileSize
      filePrint := filePrintTrg, isFollowedSymlink := isSymlinkTrg }
  let attrSrc : FileAttributes :=
    { modTime := lastWriteTimeSrc, fileSize := fileSize
      filePrint := filePrintSrc, isFollowedSymlink := isSymlinkSrc }
  { f with
    obj := f.obj.setSynced itemName
    attrL := selectParam sideTrg attrTrg attrSrc
    attrR := selectParam sideTrg attrSrc attrTrg
    moveFileRef := none }

end FilePair

namespace SymlinkPair

/-- Model of `SymlinkPair::flip` from file_hierarchy.h. -/
def flip (s : SymlinkPair) : SymlinkPair :=
  { s with obj := s.obj.flip, attrL := s.attrR, attrR := s.attrL }

/-- Model of `FileSystemObject::removeObject<side>` on a `SymlinkPair` from
file_hierarchy.h: the base-class part plus resetting the side's
`LinkAttributes`. -/
def removeObjectSide (side : SelectSide) (s : SymlinkPair) : SymlinkPair :=
  match side with
  | .left => { s with obj := s.obj.removeObjectSide .left, attrL := {} }
  | .right => { s with obj := s.obj.removeObjectSide .right, attrR := {} }

end SymlinkPair

mutual

/-- Model of `FolderPair::flip` from file_hierarchy.h:
`ContainerObject::flip` (flip all children, swap the cached relative paths)
followed by `FileSystemObject::flip` and `std::swap(attrL_, attrR_)`.
`FileSystemObject::flip` ends in `notifySyncCfgChanged()`, whose `FolderPair`
override resets `syncOpBuffered_`, so the buffer field becomes `none`. -/
def FolderPair.flip : FolderPair → FolderPair
  | .mk o aL aR _ rL rR files links folders =>
      .mk o.flip aR aL none rR rL
        (files.map FilePair.flip) (links.map SymlinkPair.flip)
        (FolderPair.flipList folders)

/-- Flip of a `ContainerObject`'s folder list (the `for` loop in
`ContainerObject::flip` from file_hierarchy.h). -/
def FolderPair.flipList : List FolderPair → List FolderPair
  | [] => []
  | f :: fs => f.flip :: FolderPair.flipList fs

end

mutual

/-- Model of `FileSystemObject::removeObject<side>` on a `FolderPair` from
file_hierarchy.h: the base-class part plus the virtual
`FolderPair::removeObjectL/R`, which recursively removes the side from every
child file, symlink and folder and resets the side's `FolderAttributes`.
The `setSyncDir` calls trigger `notifySyncCfgChanged`, so every folder
buffer in the affected subtree is reset. -/
def FolderPair.removeObjectSide (side : SelectSide) : FolderPair → FolderPair
  | .mk o aL aR _ rL rR files links folders =>
      .mk (o.removeObjectSide side)
        (selectParam side {} aL) (selectParam side aR {})
        none rL rR
        (files.map (FilePair.removeObjectSide side))
        (links.map (SymlinkPair.removeObjectSide side))
        (FolderPair.removeObjectSideList side folders)

/-- Removal over a folder list (the `for` loop in
`FolderPair::removeObjectL/R` from file_hierarchy.h). -/
def FolderPair.removeObjectSideList (side : SelectSide) :
    List FolderPair → List FolderPair
  | [] => []
  | f :: fs => f.removeObjectSide side :: FolderPair.removeObjectSideList side fs

end

mutual

/-- Erase every `syncOpBuffered_` cache in a subtree, leaving all other
fields untouched. This is the projection to the persistent fields of a
`FolderPair` (the cache is mutable, derived state in file_hierarchy.h). -/
def FolderPair.clearBuffers : FolderPair → FolderPair
  | .mk o aL aR _ rL rR files links folders =>
      .mk o aL aR none rL rR files links (FolderPair.clearBuffersList folders)

def FolderPair.clearBuffersList : List FolderPair → List FolderPair
  | [] => []
  | f :: fs => f.clearBuffers :: FolderPair.clearBuffersList fs

end

/-- Model of `BaseFolderPair::flip` from file_hierarchy.h:
`ContainerObject::flip` (flip all children, swap the cached relative paths)
plus swapping the folder statuses and the root folder paths; the comparison
settings are untouched. -/
def BaseFolderPair.flip (b : BaseFolderPair) : BaseFolderPair :=
  { b with
    folderStatusLeft := b.folderStatusRight
    folderStatusRight := b.folderStatusLeft
    folderPathLeft := b.folderPathRight
    folderPathRight := b.folderPathLeft
    relPathL := b.relPathR
    relPathR := b.relPathL
    subFiles := b.subFiles.map FilePair.flip
    subLinks := b.subLinks.map SymlinkPair.flip
    subFolders := FolderPair.flipList b.subFolders }

/-- Erase every folder-level sync-operation cache below a `BaseFolderPair`. -/
def BaseFolderPair.clearBuffers (b : BaseFolderPair) : BaseFolderPair :=
  { b with subFolders := FolderPair.clearBuffersList b.subFolders }

/-- Modelled from the spec: `FileSystemObject::getSyncOperation` is declared
in file_hierarchy.h but implemented in file_hierarchy.cpp, which is not part
of the sampled sources. The rules follow spec section 4.4 literally:
inactive ⇒ DoNothing; conflict description present ⇒ UnresolvedConflict;
Equal ⇒ DoNothing; LeftOnly/RightOnly with direction toward filling the
missing side ⇒ create on the missing side, with the other direction ⇒ delete
on the present side, with no direction ⇒ DoNothing; the
newer/different-content/different-metadata categories ⇒ update toward the
direction, no direction ⇒ DoNothing; an (unresolved) category conflict with
no direction ⇒ UnresolvedConflict, with a direction ⇒ update like a
difference. -/
def fsoSyncOperation (d : FSObjectData) : SyncOperation :=
  if d.selectedForSync = false then .doNothing
  else if d.syncDirectionConflict ≠ "" then .unresolvedConflict
  else
    match d.cmpResult, d.syncDir with
    | .equal, _ => .doNothing
    | .leftOnly, .left => .createRight
    | .leftOnly, .right => .deleteLeft
    | .leftOnly, .none => .doNothing
    | .rightOnly, .right => .createLeft
    | .rightOnly, .left => .deleteRight
    | .rightOnly, .none => .doNothing
    | .conflict, .none => .unresolvedConflict
    | .conflict, .left => .updateRight
    | .conflict, .right => .updateLeft
    | _, .left => .updateRight
    | _, .right => .updateLeft
    | _, .none => .doNothing

mutual

/-- Modelled from the spec: whether any direct or indirect descendant of a
folder requires an action (its resolved operation is not DoNothing); used by
the folder rule of spec section 4.4. -/
def FolderPair.descendantsRequireAction : FolderPair → Bool
  | .mk _ _ _ _ _ _ files links folders =>
      (files.any fun fp => fsoSyncOperation fp.obj != SyncOperation.doNothing)
      || (links.any fun sp => fsoSyncOperation sp.obj != SyncOperation.doNothing)
      || FolderPair.anyFolderRequiresAction folders

def FolderPair.anyFolderRequiresAction : List FolderPair → Bool
  | [] => false
  | f :: fs =>
      (fsoSyncOperation f.obj != SyncOperation.doNothing)
      || f.descendantsRequireAction
      || FolderPair.anyFolderRequiresAction fs

end

/-- Modelled from the spec: the uncached folder-level sync operation of
`FolderPair::getSyncOperation` (implemented in file_hierarchy.cpp, which is
not part of the sampled sources). Spec section 4.4: "Folder operation =
DoNothing if no descendant requires action, else the single action implied by
its own category/direction" — where for the existence-only categories
LeftOnly/RightOnly the implied action is the file-like create/delete. An
unresolved conflict on the folder itself is reported regardless of the
descendants. This reading is fixed by the spec's own folder-cache-coherence
scenario (section 8), under which a folder whose single child becomes
inactive must resolve to DoNothing. -/
def FolderPair.syncOpPure (f : FolderPair) : SyncOperation :=
  let own := fsoSyncOperation f.obj
  if own = .unresolvedConflict then own
  else if f.descendantsRequireAction then own
  else .doNothing

/-- Replace the `syncOpBuffered_` field of a folder. -/
def FolderPair.setBuffer (buf : Option SyncOperation) : FolderPair → FolderPair
  | .mk o aL aR _ rL rR files links folders =>
      .mk o aL aR buf rL rR files links folders

/-- Modelled from the spec: `FolderPair::getSyncOperation` buffers the
folder-level result in `syncOpBuffered_` (the member is declared in
file_hierarchy.h; the buffering read is implemented in file_hierarchy.cpp,
which is not part of the sampled sources). If a buffered value is present it
is returned as is; otherwise the operation is recomputed and stored.
Returns the operation together with the post-call folder state. -/
def FolderPair.getSyncOperation (f : FolderPair) : SyncOperation × FolderPair :=
  match f.syncOpBuffered with
  | some op => (op, f)
  | none => (f.syncOpPure, f.setBuffer (some f.syncOpPure))

/-- Which direct child of a container a tree mutation addresses. -/
inductive TargetRef where
  | file (i : Nat)
  | link (i : Nat)
  | folder (i : Nat)

/-- The state-changing entity mutations of file_hierarchy.h that trigger
`notifySyncCfgChanged`: `setActive`, `setSyncDir`, `setSyncDirConflict`
(each ends in a notification call), and `ContainerObject::addFile<left>`
(the `FileSystemObject` constructor calls `parent_.notifySyncCfgChanged()`),
which changes a folder's set of children. -/
inductive Mutation where
  | setActive (active : Bool)
  | setSyncDir (newDir : SyncDirection)
  | setSyncDirConflict (description : String)
  | addFileLeft (itemName : String) (attr : FileAttributes)

/-- Apply a mutation to a `FilePair`; `addFileLeft` does not apply to a
file. -/
def Mutation.applyToFile : Mutation → FilePair → Option FilePair
  | .setActive b, f => some { f with obj := f.obj.setActive b }
  | .setSyncDir dir, f => some { f with obj := f.obj.setSyncDir dir }
  | .setSyncDirConflict s, f => some { f with obj := f.obj.setSyncDirConflict s }
  | .addFileLeft _ _, _ => none

/-- Apply a mutation to a `SymlinkPair`. -/
def Mutation.applyToLink : Mutation → SymlinkPair → Option SymlinkPair
  | .setActive b, s => some { s with obj := s.obj.setActive b }
  | .setSyncDir dir, s => some { s with obj := s.obj.setSyncDir dir }
  | .setSyncDirConflict d, s => some { s with obj := s.obj.setSyncDirConflict d }
  | .addFileLeft _ _, _ => none

/-- Apply a mutation to a `FolderPair`. Every one of these mutations reaches
`FolderPair::notifySyncCfgChanged` (either directly, or — for `addFileLeft` —
through the new child's `FileSystemObject` constructor notifying its parent),
which resets `syncOpBuffered_`; hence the buffer of the mutated folder
becomes `none`. `addFileLeft` appends the single-side `FilePair` built by
`ContainerObject::addFile<SelectSide::left>`: left name and attributes from
the arguments, right side empty, category `FILE_LEFT_SIDE_ONLY`. -/
def Mutation.applyToFolder : Mutation → FolderPair → Option FolderPair
  | .setActive b, .mk o aL aR _ rL rR files links folders =>
      some (.mk (o.setActive b) aL aR none rL rR files links folders)
  | .setSyncDir dir, .mk o aL aR _ rL rR files links folders =>
      some (.mk (o.setSyncDir dir) aL aR none rL rR files links folders)
  | .setSyncDirConflict d, .mk o aL aR _ rL rR files links folders =>
      some (.mk (o.setSyncDirConflict d) aL aR none rL rR files links folders)
  | .addFileLeft itemName attr, .mk o aL aR _ rL rR files links folders =>
      some (.mk o aL aR none rL rR
        (files ++ [{ obj := FSObjectData.init itemName "" .leftOnly
                     attrL := attr, attrR := {}, moveFileRef := none }])
        links folders)

/-- Apply a mutation to the descendant of a folder addressed by `path`
(indices into the nested `subFolders_` lists) followed by the direct-child
reference `tgt`. Mirroring the `notifySyncCfgChanged` propagation of
file_hierarchy.h (child notifies parent, each `FolderPair` on the ancestor
chain resets `syncOpBuffered_`), the buffer of every folder traversed —
including the starting folder itself — is reset to `none`. Returns `none`
when the path or target does not address an existing entity. -/
def FolderPair.applyAt : FolderPair → List Nat → TargetRef → Mutation →
    Option FolderPair
  | .mk o aL aR _ rL rR files links folders, [], tgt, m =>
      match tgt with
      | .file i =>
          match files[i]? with
          | some fp => (m.applyToFile fp).map fun fp2 =>
              .mk o aL aR none rL rR (files.set i fp2) links folders
          | none => none
      | .link i =>
          match links[i]? with
          | some sp => (m.applyToLink sp).map fun sp2 =>
              .mk o aL aR none rL rR files (links.set i sp2) folders
          | none => none
      | .folder i =>
          match folders[i]? with
          | some dp => (m.applyToFolder dp).map fun dp2 =>
              .mk o aL aR none rL rR files links (folders.set i dp2)
          | none => none
  | .mk o aL aR _ rL rR files links folders, j :: path, tgt, m =>
      match folders[j]? with
      | some dp => (dp.applyAt path tgt m).map fun dp2 =>
          .mk o aL aR none rL rR files links (folders.set j dp2)
      | none => none

/-- A construction or destruction of an `ObjectMgr`-derived entity
(file_hierarchy.h registers `this` in `activeObjects_` in the `ObjectMgr`
constructor and erases it in the destructor); the address-equivalent
identity is modelled as a natural number. -/
inductive RegEvent where
  | construct (objId : Nat)
  | destroy (objId : Nat)
deriving DecidableEq, Repr

/-- The identity an event concerns. -/
def RegEvent.objId : RegEvent → Nat
  | .construct i => i
  | .destroy i => i

namespace ObjectMgr

/-- One constructor or destructor run of `ObjectMgr` from file_hierarchy.h:
`activeObjects_.insert(this)` respectively `activeObjects_.erase(this)`. -/
def step (s : Finset Nat) : RegEvent → Finset Nat
  | .construct i => insert i s
  | .destroy i => s.erase i

/-- The `activeObjects_` set of `ObjectMgr` after a sequence of
constructions and destructions, starting from the empty set. -/
def activeObjects (es : List RegEvent) : Finset Nat :=
  es.foldl step ∅

/-- Model of `ObjectMgr::retrieve` from file_hierarchy.h: return the id
itself (the pointer) when it is contained in `activeObjects_`, else null. -/
def retrieve (s : Finset Nat) (objId : Nat) : Option Nat :=
  if objId ∈ s then some objId else none

/-- The spec-side notion of "currently registered": the most recent
construction/destruction event concerning the id is a construction. -/
def registeredSpec (es : List RegEvent) (objId : Nat) : Bool :=
  match es.reverse.find? (fun e => e.objId == objId) with
  | some (.construct _) => true
  | _ => false

end ObjectMgr

/-- One callback invocation of the visitors of file_hierarchy.h
(`onFolder` / `onFile` / `onSymlink`), recorded with its argument. -/
inductive VisitEvent where
  | onFolder (f : FolderPair)
  | onFile (f : FilePair)
  | onSymlink (s : SymlinkPair)

/-- An entity as dispatched on by `FileSystemObject::accept` — exactly one
of the three variants of file_hierarchy.h. -/
inductive FSObject where
  | file (f : FilePair)
  | symlink (s : SymlinkPair)
  | folder (f : FolderPair)

/-- Model of `visitFSObject` from file_hierarchy.h: `accept` dispatches on
the dynamic type and invokes exactly one of the three callbacks, with no
recursion — so the result is the single corresponding event. -/
def visitFSObject : FSObject → VisitEvent
  | .file f => .onFile f
  | .symlink s => .onSymlink s
  | .folder f => .onFolder f

mutual

/-- Model of `impl::RecursiveObjectVisitor::execute` from file_hierarchy.h,
transcribing its three loops: `onFile_` for each element of
`refSubFiles()`, then `onSymlink_` for each element of `refSubLinks()`,
then, for each element of `refSubFolders()`, `onFolder_` followed by the
recursive `execute` on that subfolder. The callback invocations are recorded
as a list of events in invocation order. -/
def FolderPair.execute : FolderPair → List VisitEvent
  | .mk _ _ _ _ _ _ files links folders =>
      files.map VisitEvent.onFile ++ links.map VisitEvent.onSymlink
        ++ FolderPair.executeFolders folders

def FolderPair.executeFolders : List FolderPair → List VisitEvent
  | [] => []
  | f :: fs => VisitEvent.onFolder f :: f.execute ++ FolderPair.executeFolders fs

end

/-- Model of the `FileSystemObject` overload of `visitFSObjectRecursively`
from file_hierarchy.h: dispatch on the variant; for a file or symlink invoke
the one callback; for a folder invoke `onFolder` on it and then run the
recursive visitor on its contents. -/
def visitFSObjectRecursively : FSObject → List VisitEvent
  | .file f => [.onFile f]
  | .symlink s => [.onSymlink s]
  | .folder f => .onFolder f :: f.execute

/-- The traversal order stated by spec section 4.5, written as one
recursive equation: at each level, all file children (in order), then all
symlink children, then for each folder child its `onFolder` event
immediately followed by the events of its own subtree. -/
def FolderPair.preorderWalk : FolderPair → List VisitEvent
  | .mk _ _ _ _ _ _ files links folders =>
      files.map VisitEvent.onFile ++ links.map VisitEvent.onSymlink
        ++ (folders.attach.map fun x =>
              VisitEvent.onFolder x.val :: FolderPair.preorderWalk x.val).flatten
decreasing_by
  cases x with
  | mk val property =>
    have h1 := List.sizeOf_lt_of_mem property
    simp_wf
    omega

/-- A concrete left-only file pair with direction Left and the active flag
set (the child of the spec's folder-cache-coherence scenario). -/
def demoChildFile : FilePair :=
  { obj := { cmpResult := .leftOnly, itemNameL := "a.txt", itemNameR := ""
             syncDir := SyncDirection.left } }

/-- A concrete left-only folder with direction Left containing exactly
`demoChildFile` — the folder F of the spec's folder-cache-coherence
scenario. -/
def demoFolder : FolderPair :=
  .mk { cmpResult := .leftOnly, itemNameL := "F", itemNameR := ""
        syncDir := SyncDirection.left }
    {} {} none "F" "" [demoChildFile] [] []

/-- The scenario folder after one `getSyncOperation` call: the computed
operation is buffered in `syncOpBuffered_`. -/
def demoFolderBuffered : FolderPair :=
  (demoFolder.getSyncOperation).2

/-- The scenario folder after the buffered call and then `setActive(false)`
on its child file: the child is inactive and the folder buffer has been
invalidated by the inline `notifySyncCfgChanged` propagation. -/
def demoFolderAfter : FolderPair :=
  .mk { cmpResult := .leftOnly, itemNameL := "F", itemNameR := ""
        syncDir := SyncDirection.left }
    {} {} none "F" ""
    [{ obj := { cmpResult := .leftOnly, itemNameL := "a.txt", itemNameR := ""
                syncDir := SyncDirection.left, selectedForSync := false } }]
    [] []

/-- The per-entity states reachable through the transition API of
`FileSystemObject` in file_hierarchy.h: construction (paired or one-sided,
covered by arbitrary initial names), `setSyncDir`, `setSyncDirConflict`
(whose contract asserts a non-empty description), `setActive`,
`removeObject<side>`, `setSynced`, `flip`, and the category transitions
`setCategory` (compile-time restricted to Equal / DifferentContent /
LeftNewer / RightNewer), `setCategoryConflict` and
`setCategoryDiffMetadata` (non-empty description asserted). -/
inductive Reachable : FSObjectData → Prop where
  | construct (itemNameL itemNameR : String) (cat : CompareFileResult) :
      Reachable (FSObjectData.init itemNameL itemNameR cat)
  | setSyncDir (newDir : SyncDirection) {d : FSObjectData} :
      Reachable d → Reachable (d.setSyncDir newDir)
  | setSyncDirConflict (description : String) {d : FSObjectData} :
      description ≠ "" → Reachable d → Reachable (d.setSyncDirConflict description)
  | setActive (active : Bool) {d : FSObjectData} :
      Reachable d → Reachable (d.setActive active)
  | removeObject (side : SelectSide) {d : FSObjectData} :
      Reachable d → Reachable (d.removeObjectSide side)
  | setSynced (itemName : String) {d : FSObjectData} :
      Reachable d → Reachable (d.setSynced itemName)
  | flip {d : FSObjectData} : Reachable d → Reachable d.flip
  | setCategory (res : CompareFileResult) {d : FSObjectData} :
      (res = .equal ∨ res = .differentContent ∨ res = .leftNewer ∨
        res = .rightNewer) →
      Reachable d → Reachable (d.setCategory res)
  | setCategoryConflict (description : String) {d : FSObjectData} :
      description ≠ "" → Reachable d →
      Reachable (d.setCategoryConflict description)
  | setCategoryDiffMetadata (description : String) {d : FSObjectData} :
      description ≠ "" → Reachable d →
      Reachable (d.setCategoryDiffMetadata description)


theorem flipCategory_flipCategory (c : CompareFileResult) :
    flipCategory (flipCategory c) = c := by
  cases c <;> rfl

theorem fsobj_flip_involutive (d : FSObjectData) : d.flip.flip = d := by
  simp [FSObjectData.flip, flipCategory_flipCategory]

theorem filePair_flip_involutive (f : FilePair) : f.flip.flip = f := by
  simp [FilePair.flip, fsobj_flip_involutive]

theorem symlinkPair_flip_involutive (s : SymlinkPair) : s.flip.flip = s := by
  simp [SymlinkPair.flip, fsobj_flip_involutive]

mutual

theorem folderPair_flip_involutive : ∀ f : FolderPair, f.flip.flip = f.clearBuffers
  | .mk o aL aR buf rL rR files links folders => by
      simp [FolderPair.flip, FolderPair.clearBuffers, List.map_map,
        Function.comp_def, fsobj_flip_involutive, filePair_flip_involutive,
        symlinkPair_flip_involutive, FolderPair.flipList_flipList folders]

theorem FolderPair.flipList_flipList : ∀ fs : List FolderPair,
    FolderPair.flipList (FolderPair.flipList fs) = FolderPair.clearBuffersList fs
  | [] => rfl
  | f :: fs => by
      simp [FolderPair.flipList, FolderPair.clearBuffersList,
        folderPair_flip_involutive f, FolderPair.flipList_flipList fs]

end

theorem FolderPair.flipList_eq_map : ∀ fs : List FolderPair,
    FolderPair.flipList fs = fs.map FolderPair.flip
  | [] => rfl
  | f :: fs => by simp [FolderPair.flipList, FolderPair.flipList_eq_map fs]

/-- C2. Flip round-trip: applying `flip` twice to any `BaseFolderPair`
restores every per-side item name, per-side attribute set, relative-path
cache, category, sync direction, conflict description, active flag, root
path and root-existence status to its original value, at every entity of the
tree. Stated as: `flip ∘ flip` equals the projection `clearBuffers`, which
is the identity on all of the above persistent fields and only erases the
derived `syncOpBuffered_` caches (which `flip` resets by design, via
`notifySyncCfgChanged`). -/
theorem flip_flip_roundtrip (T : BaseFolderPair) :
    T.flip.flip = T.clearBuffers := by
  simp [BaseFolderPair.flip, BaseFolderPair.clearBuffers, List.map_map,
    Function.comp_def, filePair_flip_involutive, symlinkPair_flip_involutive,
    FolderPair.flipList_flipList]

/-- C3. Flip semantics: `flip` swaps the left and right item names,
attributes and relative-path caches through the whole subtree; maps the
category LeftOnly ↔ RightOnly and LeftNewer ↔ RightNewer and leaves Equal,
DifferentContent, DifferentMetadata and Conflict unchanged; at the root
(`BaseFolderPair`) additionally swaps the root paths and the per-side root
existence statuses while leaving the comparison settings untouched; and
leaves the stored `SyncDirection` field (as well as the conflict
description and the active flag) of every entity unchanged. -/
theorem flip_semantics :
    (∀ d : FSObjectData,
      d.flip.itemNameL = d.itemNameR ∧ d.flip.itemNameR = d.itemNameL ∧
      d.flip.cmpResult = flipCategory d.cmpResult ∧
      d.flip.syncDir = d.syncDir ∧
      d.flip.syncDirectionConflict = d.syncDirectionConflict ∧
      d.flip.selectedForSync = d.selectedForSync ∧
      d.flip.cmpResultDescr = d.cmpResultDescr)
    ∧ (flipCategory .leftOnly = .rightOnly ∧
       flipCategory .rightOnly = .leftOnly ∧
       flipCategory .leftNewer = .rightNewer ∧
       flipCategory .rightNewer = .leftNewer ∧
       flipCategory .equal = .equal ∧
       flipCategory .differentContent = .differentContent ∧
       flipCategory .differentMetadata = .differentMetadata ∧
       flipCategory .conflict = .conflict)
    ∧ (∀ f : FilePair, f.flip =
        { obj := f.obj.flip, attrL := f.attrR, attrR := f.attrL
          moveFileRef := f.moveFileRef })
    ∧ (∀ s : SymlinkPair, s.flip =
        { obj := s.obj.flip, attrL := s.attrR, attrR := s.attrL })
    ∧ (∀ fp : FolderPair,
        fp.flip.obj = fp.obj.flip ∧
        fp.flip.attrL = fp.attrR ∧ fp.flip.attrR = fp.attrL ∧
        fp.flip.relPathL = fp.relPathR ∧ fp.flip.relPathR = fp.relPathL ∧
        fp.flip.subFiles = fp.subFiles.map FilePair.flip ∧
        fp.flip.subLinks = fp.subLinks.map SymlinkPair.flip ∧
        fp.flip.subFolders = fp.subFolders.map FolderPair.flip)
    ∧ (∀ b : BaseFolderPair,
        b.flip.folderPathLeft = b.folderPathRight ∧
        b.flip.folderPathRight = b.folderPathLeft ∧
        b.flip.folderStatusLeft = b.folderStatusRight ∧
        b.flip.folderStatusRight = b.folderStatusLeft ∧
        b.flip.relPathL = b.relPathR ∧ b.flip.relPathR = b.relPathL ∧
        b.flip.filterRef = b.filterRef ∧ b.flip.cmpVar = b.cmpVar ∧
        b.flip.fileTimeTolerance = b.fileTimeTolerance ∧
        b.flip.ignoreTimeShiftMinutes = b.ignoreTimeShiftMinutes ∧
        b.flip.subFiles = b.subFiles.map FilePair.flip ∧
        b.flip.subLinks = b.subLinks.map SymlinkPair.flip ∧
        b.flip.subFolders = b.subFolders.map FolderPair.flip) := by
  refine ⟨fun d => ?_, ?_, fun f => ?_, fun s => ?_, fun fp => ?_, fun b => ?_⟩
  · simp [FSObjectData.flip]
  · simp [flipCategory]
  · rfl
  · rfl
  · cases fp with
    | mk o aL aR buf rL rR files links folders =>
      simp [FolderPair.flip, FolderPair.obj, FolderPair.attrL, FolderPair.attrR,
        FolderPair.relPathL, FolderPair.relPathR, FolderPair.subFiles,
        FolderPair.subLinks, FolderPair.subFolders, FolderPair.flipList_eq_map]
  · simp [BaseFolderPair.flip, FolderPair.flipList_eq_map]

/-- C4. `removeObject<Side>` postconditions, for every entity: the item name
on `Side` becomes empty while the other side's name is untouched; the
category becomes Equal when the other side's name is already empty and
`<OtherSide>Only` otherwise; the sync direction becomes none and the
conflict description is cleared; when both sides end up empty the pair is
pair-empty; on `FilePair`/`SymlinkPair` the side's attributes are reset; and
on `FolderPair` the same removal is applied recursively to every descendant
file, symlink and folder on that side — the children are mapped in place,
never physically deleted (the child lists keep their length). -/
theorem removeObject_postconditions :
    (∀ (side : SelectSide) (d : FSObjectData),
      selectParam side (d.removeObjectSide side).itemNameL
        (d.removeObjectSide side).itemNameR = "" ∧
      selectParam (getOtherSide side) (d.removeObjectSide side).itemNameL
          (d.removeObjectSide side).itemNameR =
        selectParam (getOtherSide side) d.itemNameL d.itemNameR ∧
      (d.removeObjectSide side).cmpResult =
        (if d.isEmptySide (getOtherSide side) then CompareFileResult.equal
         else selectParam side .rightOnly .leftOnly) ∧
      (d.removeObjectSide side).syncDir = SyncDirection.none ∧
      (d.removeObjectSide side).syncDirectionConflict = "" ∧
      (d.isEmptySide (getOtherSide side) = true →
        (d.removeObjectSide side).isPairEmpty = true))
    ∧ (∀ (side : SelectSide) (f : FilePair),
        (f.removeObjectSide side).obj = f.obj.removeObjectSide side ∧
        selectParam side (f.removeObjectSide side).attrL
          (f.removeObjectSide side).attrR = {} )
    ∧ (∀ (side : SelectSide) (s : SymlinkPair),
        (s.removeObjectSide side).obj = s.obj.removeObjectSide side ∧
        selectParam side (s.removeObjectSide side).attrL
          (s.removeObjectSide side).attrR = {} )
    ∧ (∀ (side : SelectSide) (fp : FolderPair),
        (fp.removeObjectSide side).obj = fp.obj.removeObjectSide side ∧
        selectParam side (fp.removeObjectSide side).attrL
          (fp.removeObjectSide side).attrR = {} ∧
        (fp.removeObjectSide side).subFiles =
          fp.subFiles.map (FilePair.removeObjectSide side) ∧
        (fp.removeObjectSide side).subLinks =
          fp.subLinks.map (SymlinkPair.removeObjectSide side) ∧
        (fp.removeObjectSide side).subFolders =
          fp.subFolders.map (FolderPair.removeObjectSide side) ∧
        (fp.removeObjectSide side).subFiles.length = fp.subFiles.length ∧
        (fp.removeObjectSide side).subLinks.length = fp.subLinks.length ∧
        (fp.removeObjectSide side).subFolders.length = fp.subFolders.length) := by
  have hList : ∀ (side : SelectSide) (fs : List FolderPair),
      FolderPair.removeObjectSideList side fs =
        fs.map (FolderPair.removeObjectSide side) := by
    intro side fs
    induction fs with
    | nil => rfl
    | cons f fs ih => simp [FolderPair.removeObjectSideList, ih]
  refine ⟨fun side d => ?_, fun side f => ?_, fun side s => ?_, fun side fp => ?_⟩
  · cases side <;>
      simp [FSObjectData.removeObjectSide, FSObjectData.setSyncDir, selectParam,
        getOtherSide, FSObjectData.isPairEmpty, FSObjectData.isEmptySide]
  · cases side <;> simp [FilePair.removeObjectSide, selectParam]
  · cases side <;> simp [SymlinkPair.removeObjectSide, selectParam]
  · cases fp with
    | mk o aL aR buf rL rR files links folders =>
      cases side <;>
        simp [FolderPair.removeObjectSide, FolderPair.obj, FolderPair.attrL,
          FolderPair.attrR, FolderPair.subFiles, FolderPair.subLinks,
          FolderPair.subFolders, selectParam, hList]

/-- Concrete instance of `removeObject_postconditions`: removing the left
side of a left-only entity (right name already empty) yields a pair-empty
entity. -/
theorem removeObject_postconditions_witness :
    (FSObjectData.removeObjectSide SelectSide.left
      (FSObjectData.init "a.txt" "" .leftOnly)).isPairEmpty = true :=
  ((removeObject_postconditions.1 SelectSide.left
    (FSObjectData.init "a.txt" "" .leftOnly)).2.2.2.2.2) (by decide)

/-- C6. `setSynced(name)` postconditions: on any entity that is not
pair-empty (the documented precondition), both side names become `name`,
the category becomes Equal, the sync direction becomes none and the
conflict description is cleared. -/
theorem setSynced_postconditions (itemName : String) (d : FSObjectData)
    (_hne : d.isPairEmpty = false) :
    (d.setSynced itemName).itemNameL = itemName ∧
    (d.setSynced itemName).itemNameR = itemName ∧
    (d.setSynced itemName).cmpResult = CompareFileResult.equal ∧
    (d.setSynced itemName).syncDir = SyncDirection.none ∧
    (d.setSynced itemName).syncDirectionConflict = "" := by
  simp [FSObjectData.setSynced, FSObjectData.setSyncDir]

/-- Concrete instance of `setSynced_postconditions` at a left-only entity
renamed to "x.txt". -/
theorem setSynced_postconditions_witness :
    ((FSObjectData.init "a.txt" "" .leftOnly).setSynced "x.txt").itemNameL
        = "x.txt" ∧
      ((FSObjectData.init "a.txt" "" .leftOnly).setSynced "x.txt").cmpResult
        = CompareFileResult.equal :=
  ⟨(setSynced_postconditions "x.txt" (FSObjectData.init "a.txt" "" .leftOnly)
      (by decide)).1,
   (setSynced_postconditions "x.txt" (FSObjectData.init "a.txt" "" .leftOnly)
      (by decide)).2.2.1⟩

/-- C9. Item-name fallback: `getItemName<side>` returns the selected side's
stored name when it is non-empty and the other side's name otherwise;
consequently, on any entity that is not pair-empty, `getItemName` on either
side and `getItemNameAny` return a non-empty string, even when the queried
side is empty. -/
theorem getItemName_fallback (side : SelectSide) (d : FSObjectData) :
    (selectParam side d.itemNameL d.itemNameR ≠ "" →
      d.getItemName side = selectParam side d.itemNameL d.itemNameR) ∧
    (selectParam side d.itemNameL d.itemNameR = "" →
      d.getItemName side =
        selectParam (getOtherSide side) d.itemNameL d.itemNameR) ∧
    (d.isPairEmpty = false → d.getItemName side ≠ "") ∧
    (d.isPairEmpty = false → d.getItemNameAny ≠ "") := by
  have hne : ∀ (sd : SelectSide), d.isPairEmpty = false → d.getItemName sd ≠ "" := by
    intro sd h
    by_cases hL : d.itemNameL = "" <;> by_cases hR : d.itemNameR = "" <;>
      cases sd <;>
      simp_all [FSObjectData.getItemName, FSObjectData.isPairEmpty,
        FSObjectData.isEmptySide, selectParam, getOtherSide]
  refine ⟨fun h => ?_, fun h => ?_, hne side, hne .left⟩
  · cases side <;> simp only [selectParam] at h <;>
      simp [FSObjectData.getItemName, selectParam, h]
  · cases side <;> simp only [selectParam] at h <;>
      simp [FSObjectData.getItemName, selectParam, getOtherSide, h]

/-- Concrete instance of `getItemName_fallback`: a right-only entity queried
on its empty left side falls back to the right name, which is non-empty. -/
theorem getItemName_fallback_witness :
    (FSObjectData.init "" "b.txt" .rightOnly).getItemName SelectSide.left
        = "b.txt" ∧
      (FSObjectData.init "" "b.txt" .rightOnly).getItemNameAny ≠ "" :=
  ⟨(getItemName_fallback SelectSide.left
      (FSObjectData.init "" "b.txt" .rightOnly)).2.1 (by decide),
   (getItemName_fallback SelectSide.left
      (FSObjectData.init "" "b.txt" .rightOnly)).2.2.2 (by decide)⟩

/-- C10. `FilePair::setSyncedTo<sideTrg>` postconditions: the
move-counterpart reference becomes null; both sides' attributes carry the
same `fileSize`; the target side receives the target write time, fingerprint
and followed-symlink flag and the other side the source ones; and the
`setSynced` postconditions hold (both names become `itemName`, category
Equal, direction none, conflict cleared). -/
theorem setSyncedTo_postconditions (sideTrg : SelectSide) (f : FilePair)
    (itemName : String) (fileSize : Nat)
    (lastWriteTimeTrg lastWriteTimeSrc : Int)
    (filePrintTrg filePrintSrc : Nat) (isSymlinkTrg isSymlinkSrc : Bool) :
    (f.setSyncedTo sideTrg itemName fileSize lastWriteTimeTrg lastWriteTimeSrc
        filePrintTrg filePrintSrc isSymlinkTrg isSymlinkSrc).moveFileRef
        = none ∧
    (f.setSyncedTo sideTrg itemName fileSize lastWriteTimeTrg lastWriteTimeSrc
        filePrintTrg filePrintSrc isSymlinkTrg isSymlinkSrc).attrL.fileSize
        = fileSize ∧
    (f.setSyncedTo sideTrg itemName fileSize lastWriteTimeTrg lastWriteTimeSrc
        filePrintTrg filePrintSrc isSymlinkTrg isSymlinkSrc).attrR.fileSize
        = fileSize ∧
    selectParam sideTrg
        (f.setSyncedTo sideTrg itemName fileSize lastWriteTimeTrg
          lastWriteTimeSrc filePrintTrg filePrintSrc isSymlinkTrg
          isSymlinkSrc).attrL
        (f.setSyncedTo sideTrg itemName fileSize lastWriteTimeTrg
          lastWriteTimeSrc filePrintTrg filePrintSrc isSymlinkTrg
          isSymlinkSrc).attrR =
      { modTime := lastWriteTimeTrg, fileSize := fileSize
        filePrint := filePrintTrg, isFollowedSymlink := isSymlinkTrg } ∧
    selectParam (getOtherSide sideTrg)
        (f.setSyncedTo sideTrg itemName fileSize lastWriteTimeTrg
          lastWriteTimeSrc filePrintTrg filePrintSrc isSymlinkTrg
          isSymlinkSrc).attrL
        (f.setSyncedTo sideTrg itemName fileSize lastWriteTimeTrg
          lastWriteTimeSrc filePrintTrg filePrintSrc isSymlinkTrg
          isSymlinkSrc).attrR =
      { modTime := lastWriteTimeSrc, fileSize := fileSize
        filePrint := filePrintSrc, isFollowedSymlink := isSymlinkSrc } ∧
    (f.setSyncedTo sideTrg itemName fileSize lastWriteTimeTrg lastWriteTimeSrc
        filePrintTrg filePrintSrc isSymlinkTrg isSymlinkSrc).obj =
      f.obj.setSynced itemName ∧
    (f.setSyncedTo sideTrg itemName fileSize lastWriteTimeTrg lastWriteTimeSrc
        filePrintTrg filePrintSrc isSymlinkTrg isSymlinkSrc).obj.itemNameL
        = itemName ∧
    (f.setSyncedTo sideTrg itemName fileSize lastWriteTimeTrg lastWriteTimeSrc
        filePrintTrg filePrintSrc isSymlinkTrg isSymlinkSrc).obj.itemNameR
        = itemName ∧
    (f.setSyncedTo sideTrg itemName fileSize lastWriteTimeTrg lastWriteTimeSrc
        filePrintTrg filePrintSrc isSymlinkTrg isSymlinkSrc).obj.cmpResult
        = CompareFileResult.equal ∧
    (f.setSyncedTo sideTrg itemName fileSize lastWriteTimeTrg lastWriteTimeSrc
        filePrintTrg filePrintSrc isSymlinkTrg isSymlinkSrc).obj.syncDir
        = SyncDirection.none ∧
    (f.setSyncedTo sideTrg itemName fileSize lastWriteTimeTrg lastWriteTimeSrc
        filePrintTrg filePrintSrc isSymlinkTrg
        isSymlinkSrc).obj.syncDirectionConflict = "" := by
  cases sideTrg <;>
    simp [FilePair.setSyncedTo, FSObjectData.setSynced, FSObjectData.setSyncDir,
      selectParam, getOtherSide]

/-- C5. Direction/conflict mutual exclusion: in every entity state reachable
by any sequence of construction, `setSyncDir`, `setSyncDirConflict`,
`setActive`, `removeObject`, `setSynced`, `flip` and category-transition
calls, it never holds simultaneously that the stored sync direction differs
from none and the sync-direction conflict description is non-empty. -/
theorem syncDir_conflict_mutual_exclusion (d : FSObjectData)
    (h : Reachable d) :
    ¬(d.syncDir ≠ SyncDirection.none ∧ d.syncDirectionConflict ≠ "") := by
  induction h with
  | construct nameL nameR cat => simp [FSObjectData.init]
  | setSyncDir newDir _ _ => simp [FSObjectData.setSyncDir]
  | setSyncDirConflict descr _ _ _ => simp [FSObjectData.setSyncDirConflict]
  | setActive active _ ih => simpa [FSObjectData.setActive] using ih
  | removeObject side _ _ =>
      cases side <;>
        simp [FSObjectData.removeObjectSide, FSObjectData.setSyncDir]
  | setSynced itemName _ _ =>
      simp [FSObjectData.setSynced, FSObjectData.setSyncDir]
  | flip _ ih => simpa [FSObjectData.flip] using ih
  | setCategory res _ _ ih => simpa [FSObjectData.setCategory] using ih
  | setCategoryConflict descr _ _ ih =>
      simpa [FSObjectData.setCategoryConflict] using ih
  | setCategoryDiffMetadata descr _ _ ih =>
      simpa [FSObjectData.setCategoryDiffMetadata] using ih

/-- Concrete instance of `syncDir_conflict_mutual_exclusion`: after
construction, `setSyncDir(left)` and then `setSyncDirConflict`, the
direction is back to none while the conflict description is set — the two
never coexist. -/
theorem syncDir_conflict_mutual_exclusion_witness :
    ¬((((FSObjectData.init "a.txt" "a.txt" .leftNewer).setSyncDir
          SyncDirection.left).setSyncDirConflict "two-way conflict").syncDir
        ≠ SyncDirection.none ∧
      (((FSObjectData.init "a.txt" "a.txt" .leftNewer).setSyncDir
          SyncDirection.left).setSyncDirConflict
          "two-way conflict").syncDirectionConflict ≠ "") :=
  syncDir_conflict_mutual_exclusion _
    (Reachable.setSyncDirConflict "two-way conflict" (by decide)
      (Reachable.setSyncDir SyncDirection.left
        (Reachable.construct "a.txt" "a.txt" .leftNewer)))

theorem FolderPair.preorderWalk_eq_unfold (o : FSObjectData)
    (aL aR : FolderAttributes) (buf : Option SyncOperation)
    (rL rR : String) (files : List FilePair) (links : List SymlinkPair)
    (folders : List FolderPair) :
    FolderPair.preorderWalk (.mk o aL aR buf rL rR files links folders) =
      files.map VisitEvent.onFile ++ links.map VisitEvent.onSymlink
        ++ (folders.map fun f =>
              VisitEvent.onFolder f :: FolderPair.preorderWalk f).flatten := by
  rw [FolderPair.preorderWalk]
  simp

mutual

theorem FolderPair.execute_eq_preorderWalk : ∀ f : FolderPair,
    f.execute = f.preorderWalk
  | .mk o aL aR buf rL rR files links folders => by
      rw [FolderPair.execute, FolderPair.preorderWalk_eq_unfold,
        FolderPair.executeFolders_eq_flatten folders]

theorem FolderPair.executeFolders_eq_flatten : ∀ fs : List FolderPair,
    FolderPair.executeFolders fs =
      (fs.map fun f => VisitEvent.onFolder f :: FolderPair.preorderWalk f).flatten
  | [] => rfl
  | f :: fs => by
      rw [FolderPair.executeFolders, FolderPair.execute_eq_preorderWalk f,
        FolderPair.executeFolders_eq_flatten fs]
      simp

end

/-- C7. Traversal: the recursive visitor `impl::RecursiveObjectVisitor::
execute` produces, at every level, all file callbacks first, then all
symlink callbacks, then — for each subfolder — the `onFolder` callback
immediately followed by the events of that subfolder's own subtree
(pre-order, files/symlinks-before-subfolders at every level), i.e. it
coincides with the order `preorderWalk` transcribed from the spec sentence;
the `FileSystemObject` overload of `visitFSObjectRecursively` dispatches the
starting entity and recurses only into a folder; and the single-node
dispatch `visitFSObject` invokes exactly the one callback matching the
entity's variant, with no recursion. -/
theorem traversal_order :
    (∀ f : FolderPair, f.execute = f.preorderWalk)
    ∧ (∀ x : FSObject, visitFSObjectRecursively x =
        match x with
        | .file f => [VisitEvent.onFile f]
        | .symlink s => [VisitEvent.onSymlink s]
        | .folder f => VisitEvent.onFolder f :: f.preorderWalk)
    ∧ (∀ f : FilePair, visitFSObject (FSObject.file f) = VisitEvent.onFile f)
    ∧ (∀ s : SymlinkPair,
        visitFSObject (FSObject.symlink s) = VisitEvent.onSymlink s)
    ∧ (∀ f : FolderPair,
        visitFSObject (FSObject.folder f) = VisitEvent.onFolder f) := by
  refine ⟨FolderPair.execute_eq_preorderWalk, fun x => ?_,
    fun _ => rfl, fun _ => rfl, fun _ => rfl⟩
  cases x with
  | file f => rfl
  | symlink s => rfl
  | folder f =>
      simp [visitFSObjectRecursively, FolderPair.execute_eq_preorderWalk f]

theorem ObjectMgr.mem_foldl_iff : ∀ (es : List RegEvent) (s : Finset Nat)
    (i : Nat),
    (i ∈ es.foldl ObjectMgr.step s) ↔
      (match es.reverse.find? (fun e => e.objId == i) with
       | some (RegEvent.construct _) => True
       | some (RegEvent.destroy _) => False
       | none => i ∈ s) := by
  intro es
  induction es with
  | nil => intro s i; simp
  | cons e es ih =>
      intro s i
      rw [List.foldl_cons, ih, List.reverse_cons, List.find?_append]
      cases hfind : es.reverse.find? (fun x => x.objId == i) with
      | some v => cases v <;> simp
      | none =>
          cases e with
          | construct j =>
              rcases eq_or_ne j i with hj | hj
              · subst hj
                rw [List.find?_cons_of_pos _ (by simp [RegEvent.objId])]
                simp [ObjectMgr.step]
              · rw [List.find?_cons_of_neg _ (by simp [RegEvent.objId, hj])]
                simp [ObjectMgr.step, Ne.symm hj]
          | destroy j =>
              rcases eq_or_ne j i with hj | hj
              · subst hj
                rw [List.find?_cons_of_pos _ (by simp [RegEvent.objId])]
                simp [ObjectMgr.step]
              · rw [List.find?_cons_of_neg _ (by simp [RegEvent.objId, hj])]
                simp [ObjectMgr.step, Finset.mem_erase, Ne.symm hj]

/-- C8. Identity-registry lookup safety: after any sequence of entity
constructions and destructions, `retrieve(id)` returns the (non-null)
pointer exactly when the id is currently registered — its most recent
registry event is a construction (registration happens in the `ObjectMgr`
constructor, deregistration in the destructor) — and returns null
otherwise; in particular a construction registers the id, a destruction
deregisters it (a later lookup yields nothing, never a dangling reference),
and any lookup yields either nothing or exactly the queried identity. -/
theorem objectMgr_retrieve_safety :
    (∀ (es : List RegEvent) (i : Nat),
      (ObjectMgr.retrieve (ObjectMgr.activeObjects es) i = some i ↔
        ObjectMgr.registeredSpec es i = true) ∧
      (ObjectMgr.retrieve (ObjectMgr.activeObjects es) i = none ↔
        ObjectMgr.registeredSpec es i = false))
    ∧ (∀ (es : List RegEvent) (i : Nat),
        ObjectMgr.retrieve
          (ObjectMgr.activeObjects (es ++ [RegEvent.construct i])) i = some i)
    ∧ (∀ (es : List RegEvent) (i : Nat),
        ObjectMgr.retrieve
          (ObjectMgr.activeObjects (es ++ [RegEvent.destroy i])) i = none)
    ∧ (∀ (s : Finset Nat) (i : Nat),
        ObjectMgr.retrieve s i = none ∨ ObjectMgr.retrieve s i = some i) := by
  have hmem : ∀ (es : List RegEvent) (i : Nat),
      (i ∈ ObjectMgr.activeObjects es) ↔
        ObjectMgr.registeredSpec es i = true := by
    intro es i
    rw [ObjectMgr.activeObjects, ObjectMgr.mem_foldl_iff,
      ObjectMgr.registeredSpec]
    cases hfind : es.reverse.find? (fun e => e.objId == i) with
    | some v => cases v <;> simp
    | none => simp
  refine ⟨fun es i => ?_, fun es i => ?_, fun es i => ?_, fun s i => ?_⟩
  · have hiff := hmem es i
    constructor
    · by_cases hm : i ∈ ObjectMgr.activeObjects es
      · simp [ObjectMgr.retrieve, hm, hiff.mp hm]
      · simp [ObjectMgr.retrieve, hm, ← hiff]
    · by_cases hm : i ∈ ObjectMgr.activeObjects es
      · simp [ObjectMgr.retrieve, hm, hiff.mp hm]
      · have hfalse : ObjectMgr.registeredSpec es i = false := by
          cases hx : ObjectMgr.registeredSpec es i
          · rfl
          · exact absurd (hiff.mpr hx) hm
        simp [ObjectMgr.retrieve, hm, hfalse]
  · simp [ObjectMgr.activeObjects, List.foldl_append, ObjectMgr.step,
      ObjectMgr.retrieve]
  · simp [ObjectMgr.activeObjects, List.foldl_append, ObjectMgr.step,
      ObjectMgr.retrieve]
  · rw [ObjectMgr.retrieve]
    split <;> simp

theorem FolderPair.applyAt_buffer_none (f : FolderPair) (p : List Nat)
    (tgt : TargetRef) (m : Mutation) (f' : FolderPair)
    (h : f.applyAt p tgt m = some f') : f'.syncOpBuffered = none := by
  cases f with
  | mk o aL aR buf rL rR files links folders =>
    cases p with
    | nil =>
        cases tgt with
        | file i =>
            simp only [FolderPair.applyAt] at h
            split at h
            · rcases Option.map_eq_some'.mp h with ⟨fp2, _, rfl⟩
              rfl
            · simp at h
        | link i =>
            simp only [FolderPair.applyAt] at h
            split at h
            · rcases Option.map_eq_some'.mp h with ⟨sp2, _, rfl⟩
              rfl
            · simp at h
        | folder i =>
            simp only [FolderPair.applyAt] at h
            split at h
            · rcases Option.map_eq_some'.mp h with ⟨dp2, _, rfl⟩
              rfl
            · simp at h
    | cons j p =>
        simp only [FolderPair.applyAt] at h
        split at h
        · rcases Option.map_eq_some'.mp h with ⟨dp2, _, rfl⟩
          rfl
        · simp at h

/-- C1. Folder sync-operation cache coherence: every mutation of a direct
or indirect descendant (active flag, sync direction, conflict state, or the
set of children via `addFile`) resets the folder's `syncOpBuffered_` inline
(the `notifySyncCfgChanged` chain), so a subsequent `getSyncOperation`
call — with no explicit recompute by the caller — returns the operation
recomputed from the new descendant state; concretely, on a folder F with
one child file of category LeftOnly and direction Left, `getSyncOperation`
yields Create (on the right side), and after the child's active flag is set
to `false` a subsequent `getSyncOperation` call yields DoNothing. -/
theorem folder_syncOp_cache_coherence :
    (∀ (f : FolderPair) (p : List Nat) (tgt : TargetRef) (m : Mutation)
        (f' : FolderPair), f.applyAt p tgt m = some f' →
      f'.syncOpBuffered = none ∧
      f'.getSyncOperation =
        (f'.syncOpPure, f'.setBuffer (some f'.syncOpPure)))
    ∧ (demoFolder.getSyncOperation).1 = SyncOperation.createRight
    ∧ demoFolderBuffered.syncOpBuffered = some SyncOperation.createRight
    ∧ (demoFolderBuffered.applyAt [] (.file 0) (Mutation.setActive false)).map
        (fun f2 => (f2.getSyncOperation).1) = some SyncOperation.doNothing := by
  refine ⟨fun f p tgt m f' h => ?_, rfl, rfl, rfl⟩
  have hb := FolderPair.applyAt_buffer_none f p tgt m f' h
  exact ⟨hb, by rw [FolderPair.getSyncOperation, hb]⟩

/-- Concrete instance of `folder_syncOp_cache_coherence`: deactivating the
single child of the scenario folder invalidates the buffered Create and the
next `getSyncOperation` recomputes DoNothing from the new state. -/
theorem folder_syncOp_cache_coherence_witness :
    demoFolderAfter.syncOpBuffered = none ∧
    demoFolderAfter.getSyncOperation =
      (demoFolderAfter.syncOpPure,
        demoFolderAfter.setBuffer (some demoFolderAfter.syncOpPure)) ∧
    demoFolderAfter.syncOpPure = SyncOperation.doNothing :=
  ⟨(folder_syncOp_cache_coherence.1 demoFolderBuffered [] (.file 0)
      (Mutation.setActive false) demoFolderAfter rfl).1,
   (folder_syncOp_cache_coherence.1 demoFolderBuffered [] (.file 0)
      (Mutation.setActive false) demoFolderAfter rfl).2,
   rfl⟩
